import Mathlib

/-!
Verification of the dispatch / live-tracking core of the bigbite backend
(Express + Socket.IO server in src/unnamed/part_001 and the order routes in
src/routes/order.js) against its natural-language specification.

Conventions of the shallow embedding:
* JavaScript numbers are modelled as rationals (`ℚ`); timestamps (Date values,
  millisecond epoch times) as `Nat`.
* A nullable / possibly-undefined JavaScript field is an `Option`.
* The MongoDB order document is `OrderRec`; `Order.findById` returning no
  document is `Option OrderRec = none`; `order.save()` is modelled as the
  in-memory document overwriting the stored one.
* The activeRidersPool JavaScript `Map` is an association list
  `List (Nat × RiderRec)` with `Map.get`/`Map.set`/`Map.delete` helpers.
-/

/-- Order statuses: the union of the enum of the Order schema
(src/routes/order.js, appended model) and the statuses the handlers write
(pending_payment in POST /pending, awaiting_rider in restaurant_accept_order). -/
inductive OrderStatus where
  | pending_payment
  | pending
  | accepted
  | awaiting_rider
  | rider_assigned
  | preparing
  | ready
  | picked_up
  | on_the_way
  | delivered
  | rejected
  | auto_rejected
  | cancelled
deriving DecidableEq, Repr

/-- A latitude / longitude pair, as stored in coordinates objects. -/
structure Coord where
  latitude : ℚ
  longitude : ℚ
deriving DecidableEq, Repr

/-- The fields of the durable Order document that the modelled handlers read or
write.  Timestamps are `Option Nat` (absent until stamped). -/
structure OrderRec where
  status : OrderStatus
  rider : Option Nat
  createdAt : Nat
  deliveryFee : ℚ
  distanceToCustomer : ℚ
  riderEarnings : ℚ
  totalAmount : ℚ
  pickupPin : Option String
  deliveryPin : Option String
  restaurantCoordinates : Option Coord
  riderLocation : Option Coord
  acceptedAt : Option Nat
  preparingAt : Option Nat
  readyAt : Option Nat
  pickedUpAt : Option Nat
  onTheWayAt : Option Nat
  deliveredAt : Option Nat
  cancelledAt : Option Nat
  cancelledBy : Option String
  rejectionReason : Option String
deriving DecidableEq, Repr

/-- An entry of the activeRidersPool map (src/unnamed/part_001 line 191).
Display-only fields (socketId, phone) are omitted.  `coordinates = none`
models a pool record whose latitude/longitude are missing or non-numeric:
the only reachable such states make calculateDistance evaluate to NaN, and
every NaN comparison in the radius filter is false. -/
structure RiderRec where
  riderId : Nat
  name : String
  coordinates : Option Coord
  activeOrders : List Nat
  lastUpdate : Nat
deriving DecidableEq, Repr

/-- The activeRidersPool: a JavaScript Map keyed by rider id. -/
abbrev RiderPool := List (Nat × RiderRec)

/-- Map.get on the rider pool. -/
def poolGet (pool : RiderPool) (rid : Nat) : Option RiderRec :=
  List.lookup rid pool

/-- Map.set on the rider pool: replace the binding in place if the key is
present, else append the new binding at the end (JavaScript Map insertion
order semantics). -/
def poolSet (pool : RiderPool) (rid : Nat) (rec : RiderRec) : RiderPool :=
  match pool with
  | [] => [(rid, rec)]
  | p :: ps => if p.1 = rid then (rid, rec) :: ps else p :: poolSet ps rid rec

/-- Map.delete on the rider pool. -/
def poolDelete (pool : RiderPool) (rid : Nat) : RiderPool :=
  pool.filter (fun p => p.1 ≠ rid)

/-- JavaScript Math.round: round half toward positive infinity, that is the
floor of q + 1/2. -/
def jsRound (q : ℚ) : ℤ :=
  ⌊q + 1 / 2⌋

/-- The rider earnings formula of the rider_accept_order handler
(src/unnamed/part_001 lines 430-432): the delivery fee when positive,
otherwise Math.round(distanceToCustomer * 8). -/
def riderEarningsCalc (deliveryFee distanceToCustomer : ℚ) : ℚ :=
  if deliveryFee > 0 then deliveryFee else (jsRound (distanceToCustomer * 8) : ℚ)

/-- Socket events emitted by the modelled handlers. -/
inductive Event where
  | order_taken (toRider : Nat) (orderId : Nat)
  | order_accepted (orderId : Nat)
  | rider_location_live (orderId : Nat)
  | order_status_changed (orderId : Nat) (status : OrderStatus)
  | order_accepted_confirmation (orderId : Nat)
  | error_order_not_available
  | new_order_available (toRider : Nat) (orderId : Nat)
deriving DecidableEq, Repr

/-- Outcome a claimant observes: the order_accepted_confirmation success path,
or the error emit with message Order not available (the reason the spec names
OrderAlreadyTaken). -/
inductive ClaimResult where
  | accepted
  | rejected
deriving DecidableEq, Repr

/-- State and outputs produced by one rider_accept_order invocation. -/
structure ClaimOutcome where
  dbOrder : Option OrderRec
  pool : RiderPool
  result : ClaimResult
  events : List Event
deriving DecidableEq

/-- The availability check of rider_accept_order (src/unnamed/part_001 line
412): the order was found, its status is awaiting_rider and no rider is bound
(order.rider is falsy). -/
def claimCheck (snap : Option OrderRec) : Bool :=
  match snap with
  | some ord => ord.status = OrderStatus.awaiting_rider ∧ ord.rider = none
  | none => false

/-- Commit phase of rider_accept_order (src/unnamed/part_001 lines 407-522),
acting on the document snapshot `snap` fetched by Order.findById while `db` is
the current stored document.  On a passing check the handler computes the
distance and earnings, binds the rider, flips the status to rider_assigned,
stamps acceptedAt, saves, appends the order to the claiming rider pool record,
emits order_taken to every other pool rider, order_accepted to the order room,
an initial rider_location_live fix when the rider has coordinates,
order_status_changed to the restaurant and a confirmation to the claimer.
Otherwise it emits the error Order not available and changes nothing. -/
def claimCoords (pool : RiderPool) (riderId : Nat) : Option Coord :=
  match poolGet pool riderId with
  | some r => r.coordinates
  | none => none

/-- Pool mutation of a successful claim (src/unnamed/part_001 lines 456-459):
the order id is pushed onto the claiming rider activeOrders when the rider is
in the pool. -/
def claimPoolUpdate (oid : Nat) (pool : RiderPool) (riderId : Nat) : RiderPool :=
  match poolGet pool riderId with
  | some r => poolSet pool riderId { r with activeOrders := r.activeOrders ++ [oid] }
  | none => pool

/-- Document mutation of a successful claim (src/unnamed/part_001 lines
434-451): bind the rider, flip the status, stamp acceptedAt, store the
computed distance and earnings and the rider initial location. -/
def claimApply (riderId now : Nat) (dist : ℚ) (ord : OrderRec)
    (pool : RiderPool) : OrderRec :=
  { ord with
    rider := some riderId
    status := OrderStatus.rider_assigned
    acceptedAt := some now
    distanceToCustomer := dist
    riderEarnings := riderEarningsCalc ord.deliveryFee dist
    riderLocation := claimCoords pool riderId }

/-- Events of a successful claim (src/unnamed/part_001 lines 471-512):
order_taken to every other pool rider, order_accepted to the order room, an
initial rider_location_live fix when the rider has coordinates,
order_status_changed to the restaurant and a confirmation to the claimer. -/
def claimSuccessEvents (oid riderId : Nat) (pool : RiderPool) : List Event :=
  ((pool.map Prod.fst).filter (fun rid => rid ≠ riderId)).map
      (fun rid => Event.order_taken rid oid)
    ++ [Event.order_accepted oid]
    ++ (match claimCoords pool riderId with
        | some _ => [Event.rider_location_live oid]
        | none => [])
    ++ [Event.order_status_changed oid OrderStatus.rider_assigned,
        Event.order_accepted_confirmation oid]

def claimCommit (oid riderId now : Nat) (dist : ℚ) (snap db : Option OrderRec)
    (pool : RiderPool) : ClaimOutcome :=
  match snap with
  | some ord =>
    if ord.status = OrderStatus.awaiting_rider ∧ ord.rider = none then
      { dbOrder := some (claimApply riderId now dist ord pool)
        pool := claimPoolUpdate oid pool riderId
        result := ClaimResult.accepted
        events := claimSuccessEvents oid riderId pool }
    else
      { dbOrder := db, pool := pool, result := ClaimResult.rejected,
        events := [Event.error_order_not_available] }
  | none =>
    { dbOrder := db, pool := pool, result := ClaimResult.rejected,
      events := [Event.error_order_not_available] }

/-- One rider_accept_order invocation run without interference: the snapshot
read by Order.findById is the currently stored document. -/
def rider_accept_order (oid riderId now : Nat) (dist : ℚ) (db : Option OrderRec)
    (pool : RiderPool) : ClaimOutcome :=
  claimCommit oid riderId now dist db db pool

/-- Equation lemma: commit on an available snapshot. -/
theorem claimCommit_accept (oid riderId now : Nat) (dist : ℚ) (ord : OrderRec)
    (db : Option OrderRec) (pool : RiderPool)
    (h1 : ord.status = OrderStatus.awaiting_rider) (h2 : ord.rider = none) :
    claimCommit oid riderId now dist (some ord) db pool =
      { dbOrder := some (claimApply riderId now dist ord pool)
        pool := claimPoolUpdate oid pool riderId
        result := ClaimResult.accepted
        events := claimSuccessEvents oid riderId pool } := by
  simp only [claimCommit, if_pos (And.intro h1 h2)]

/-- Equation lemma: commit on an unavailable snapshot. -/
theorem claimCommit_reject (oid riderId now : Nat) (dist : ℚ) (ord : OrderRec)
    (db : Option OrderRec) (pool : RiderPool)
    (h : ¬(ord.status = OrderStatus.awaiting_rider ∧ ord.rider = none)) :
    claimCommit oid riderId now dist (some ord) db pool =
      { dbOrder := db, pool := pool, result := ClaimResult.rejected,
        events := [Event.error_order_not_available] } := by
  simp only [claimCommit, if_neg h]

/-- Equation lemma: commit on a missing document. -/
theorem claimCommit_none (oid riderId now : Nat) (dist : ℚ)
    (db : Option OrderRec) (pool : RiderPool) :
    claimCommit oid riderId now dist none db pool =
      { dbOrder := db, pool := pool, result := ClaimResult.rejected,
        events := [Event.error_order_not_available] } := rfl

/-- Two rider_accept_order invocations for the same order interleaved at the
await points of the handler: both Order.findById reads resolve (each handler
snapshots the same stored document) before either order.save runs, which the
single-threaded event loop permits because the handler awaits between the
check and the save.  Returns both results, the final stored document and the
concatenated event log. -/
def concurrentClaims (oid r1 r2 now : Nat) (dist : ℚ) (db0 : Option OrderRec)
    (pool0 : RiderPool) : (ClaimResult × ClaimResult) × Option OrderRec × List Event :=
  let snap1 := db0
  let snap2 := db0
  let o1 := claimCommit oid r1 now dist snap1 db0 pool0
  let o2 := claimCommit oid r2 now dist snap2 o1.dbOrder o1.pool
  ((o1.result, o2.result), o2.dbOrder, o1.events ++ o2.events)

/-- A concrete order sitting in awaiting_rider with no rider bound. -/
def awaitingOrder : OrderRec :=
  { status := OrderStatus.awaiting_rider
    rider := none
    createdAt := 0
    deliveryFee := 0
    distanceToCustomer := 0
    riderEarnings := 0
    totalAmount := 300
    pickupPin := some "1234"
    deliveryPin := some "5678"
    restaurantCoordinates := some ⟨10, 20⟩
    riderLocation := none
    acceptedAt := none
    preparingAt := none
    readyAt := none
    pickedUpAt := none
    onTheWayAt := none
    deliveredAt := none
    cancelledAt := none
    cancelledBy := none
    rejectionReason := none }

/-- A concrete rider pool holding riders 1 and 2, both with coordinates. -/
def twoRiderPool : RiderPool :=
  [(1, { riderId := 1, name := "r1", coordinates := some ⟨10, 20⟩,
         activeOrders := [], lastUpdate := 0 }),
   (2, { riderId := 2, name := "r2", coordinates := some ⟨11, 21⟩,
         activeOrders := [], lastUpdate := 0 })]

/-- C1: the claim the spec makes (exactly one of N concurrent claimants
succeeds, the rest observe the rejection, and exactly one order_accepted event
is published) fails on the code: the handler awaits between the availability
check and order.save, so two claim invocations whose Order.findById reads both
resolve before either save both pass the check, both are confirmed, and
order_accepted is published twice.  Run sequentially the second claim is
rejected, which shows the interleaving alone causes the double success. -/
theorem C1_concurrent_claims_both_succeed :
    (concurrentClaims 42 1 2 1000 5 (some awaitingOrder) twoRiderPool).1.1
      = ClaimResult.accepted ∧
    (concurrentClaims 42 1 2 1000 5 (some awaitingOrder) twoRiderPool).1.2
      = ClaimResult.accepted ∧
    (concurrentClaims 42 1 2 1000 5 (some awaitingOrder) twoRiderPool).2.2.count
      (Event.order_accepted 42) = 2 ∧
    (rider_accept_order 42 2 1000 5
      (rider_accept_order 42 1 1000 5 (some awaitingOrder) twoRiderPool).dbOrder
      (rider_accept_order 42 1 1000 5 (some awaitingOrder) twoRiderPool).pool).result
      = ClaimResult.rejected ∧
    ((rider_accept_order 42 1 1000 5 (some awaitingOrder) twoRiderPool).events ++
      (rider_accept_order 42 2 1000 5
        (rider_accept_order 42 1 1000 5 (some awaitingOrder) twoRiderPool).dbOrder
        (rider_accept_order 42 1 1000 5 (some awaitingOrder) twoRiderPool).pool).events).count
      (Event.order_accepted 42) = 1 := by
  decide

/-- C2: a claim succeeds exactly when the order exists, is awaiting_rider and
has no rider bound; on success the claiming rider is bound and the status
flips to rider_assigned; on rejection the stored order is unchanged and the
claimant observes the single rejection event (the spec reason
OrderAlreadyTaken, surfaced by the code as the error Order not available). -/
theorem C2_claim_guard (db : Option OrderRec) (oid riderId now : Nat) (dist : ℚ)
    (pool : RiderPool) :
    ((rider_accept_order oid riderId now dist db pool).result = ClaimResult.accepted ↔
      ∃ ord, db = some ord ∧ ord.status = OrderStatus.awaiting_rider ∧ ord.rider = none) ∧
    (∀ ord, db = some ord → ord.status = OrderStatus.awaiting_rider → ord.rider = none →
      ∃ ord1, (rider_accept_order oid riderId now dist db pool).dbOrder = some ord1 ∧
        ord1.rider = some riderId ∧ ord1.status = OrderStatus.rider_assigned) ∧
    ((rider_accept_order oid riderId now dist db pool).result = ClaimResult.rejected →
      (rider_accept_order oid riderId now dist db pool).dbOrder = db ∧
      (rider_accept_order oid riderId now dist db pool).events =
        [Event.error_order_not_available]) := by
  obtain _ | ord := db
  · rw [rider_accept_order, claimCommit_none]
    refine ⟨⟨fun h => ?_, ?_⟩, ?_, fun _ => ⟨rfl, rfl⟩⟩
    · cases h
    · rintro ⟨ord, h, -, -⟩; cases h
    · intro ord h; cases h
  · by_cases h : ord.status = OrderStatus.awaiting_rider ∧ ord.rider = none
    · rw [rider_accept_order, claimCommit_accept oid riderId now dist ord _ pool h.1 h.2]
      refine ⟨⟨fun _ => ⟨ord, rfl, h.1, h.2⟩, fun _ => rfl⟩, ?_, ?_⟩
      · intro ord2 h2 _ _
        cases h2
        exact ⟨_, rfl, rfl, rfl⟩
      · intro hcon; cases hcon
    · rw [rider_accept_order, claimCommit_reject oid riderId now dist ord _ pool h]
      refine ⟨⟨fun hcon => (by cases hcon), ?_⟩, ?_, fun _ => ⟨rfl, rfl⟩⟩
      · rintro ⟨ord2, h2, hs, hr⟩
        cases h2
        exact absurd ⟨hs, hr⟩ h
      · intro ord2 h2 hs hr
        cases h2
        exact absurd ⟨hs, hr⟩ h

/-- Witness for C2 at a concrete awaiting order and rider 1. -/
theorem C2_claim_guard_witness :
    ∃ ord1, (rider_accept_order 42 1 1000 5 (some awaitingOrder) twoRiderPool).dbOrder
        = some ord1 ∧
      ord1.rider = some 1 ∧ ord1.status = OrderStatus.rider_assigned :=
  (C2_claim_guard (some awaitingOrder) 42 1 1000 5 twoRiderPool).2.1
    awaitingOrder rfl rfl rfl

/-- C4: on a successful claim the stored riderEarnings equals the delivery fee
when it is positive and Math.round(distance * 8) otherwise, and at
deliveryFee = 0 and distance = 5 km the computed earnings are 40. -/
theorem C4_rider_earnings (ord : OrderRec) (oid riderId now : Nat) (dist : ℚ)
    (pool : RiderPool)
    (hs : ord.status = OrderStatus.awaiting_rider) (hr : ord.rider = none) :
    (∃ ord1, (rider_accept_order oid riderId now dist (some ord) pool).dbOrder = some ord1 ∧
      ord1.riderEarnings =
        (if ord.deliveryFee > 0 then ord.deliveryFee else (jsRound (dist * 8) : ℚ))) ∧
    riderEarningsCalc 0 5 = 40 := by
  constructor
  · rw [rider_accept_order, claimCommit_accept oid riderId now dist ord _ pool hs hr]
    exact ⟨_, rfl, rfl⟩
  · norm_num [riderEarningsCalc, jsRound]

/-- Witness for C4: a zero-fee order at distance 5 km stores earnings 40. -/
theorem C4_rider_earnings_witness :
    (∃ ord1, (rider_accept_order 42 1 1000 5 (some awaitingOrder) twoRiderPool).dbOrder
        = some ord1 ∧
      ord1.riderEarnings =
        (if awaitingOrder.deliveryFee > 0 then awaitingOrder.deliveryFee
         else (jsRound ((5 : ℚ) * 8) : ℚ))) ∧
    riderEarningsCalc 0 5 = 40 :=
  C4_rider_earnings awaitingOrder 42 1 1000 5 twoRiderPool rfl rfl

/-- Aggregate statistics kept in rider.riderDetails and updated on delivery
(src/routes/order.js lines 697-717). -/
structure RiderStats where
  totalDeliveries : Nat
  totalEarnings : ℚ
  todayEarnings : ℚ
  lastEarningsReset : Nat
deriving DecidableEq, Repr

/-- Calendar day of a millisecond timestamp; models the
Date.toDateString() comparison of the code with UTC day boundaries. -/
def dayOf (t : Nat) : Nat :=
  t / 86400000

/-- The rider statistics update run when an order becomes delivered
(src/routes/order.js lines 701-714): reset todayEarnings on a new calendar
day, then increment the delivery count and add the order riderEarnings to the
running totals. -/
def updateRiderStatsOnDelivery (s : RiderStats) (earnings : ℚ) (now : Nat) : RiderStats :=
  let s1 := if dayOf s.lastEarningsReset ≠ dayOf now then
    { s with todayEarnings := 0, lastEarningsReset := now } else s
  { s1 with
    totalDeliveries := s1.totalDeliveries + 1
    totalEarnings := s1.totalEarnings + earnings
    todayEarnings := s1.todayEarnings + earnings }

/-- HTTP outcome of PATCH /api/orders/:id/status. -/
inductive PatchResult where
  | invalidStatus
  | notFound
  | ok
deriving DecidableEq, Repr

/-- The status list accepted by PATCH /api/orders/:id/status
(src/routes/order.js lines 649-656). -/
def validStatuses : List OrderStatus :=
  [OrderStatus.preparing, OrderStatus.ready, OrderStatus.picked_up,
   OrderStatus.on_the_way, OrderStatus.delivered, OrderStatus.cancelled]

/-- PATCH /api/orders/:id/status (src/routes/order.js lines 644-754): reject a
status outside validStatuses, 404 a missing order, otherwise set the status
unconditionally, stamp the timestamp of the new status, and on delivered run
the rider statistics update when the order has a rider whose user record is a
rider (`stats` is that looked-up record, none when absent). -/
def patchStatus (status : OrderStatus) (db : Option OrderRec)
    (stats : Option RiderStats) (now : Nat) :
    Option OrderRec × Option RiderStats × PatchResult :=
  if ¬ (status ∈ validStatuses) then (db, stats, PatchResult.invalidStatus)
  else
    match db with
    | none => (none, stats, PatchResult.notFound)
    | some ord =>
      let ord1 := { ord with status := status }
      match status with
      | OrderStatus.preparing =>
          (some { ord1 with preparingAt := some now }, stats, PatchResult.ok)
      | OrderStatus.ready =>
          (some { ord1 with readyAt := some now }, stats, PatchResult.ok)
      | OrderStatus.picked_up =>
          (some { ord1 with pickedUpAt := some now }, stats, PatchResult.ok)
      | OrderStatus.on_the_way =>
          (some { ord1 with onTheWayAt := some now }, stats, PatchResult.ok)
      | OrderStatus.delivered =>
          let stats1 := match ord.rider, stats with
            | some _, some s => some (updateRiderStatsOnDelivery s ord.riderEarnings now)
            | _, _ => stats
          (some { ord1 with deliveredAt := some now }, stats1, PatchResult.ok)
      | OrderStatus.cancelled =>
          (some { ord1 with cancelledAt := some now }, stats, PatchResult.ok)
      | _ => (some ord1, stats, PatchResult.ok)

/-- The update_order_status socket handler (src/unnamed/part_001 lines
525-579): no status validation at all; sets the requested status and stamps
acceptedAt / pickedUpAt / deliveredAt / cancelledAt where applicable. -/
def update_order_status (status : OrderStatus) (db : Option OrderRec)
    (now : Nat) : Option OrderRec :=
  match db with
  | none => none
  | some ord =>
    let ord1 := { ord with status := status }
    let ord2 := if status = OrderStatus.accepted then
        { ord1 with acceptedAt := some now } else ord1
    let ord3 := if status = OrderStatus.picked_up then
        { ord2 with pickedUpAt := some now } else ord2
    let ord4 := if status = OrderStatus.delivered then
        { ord3 with deliveredAt := some now } else ord3
    let ord5 := if status = OrderStatus.cancelled then
        { ord4 with cancelledAt := some now, cancelledBy := some "rider" } else ord4
    some ord5

/-- Position of a status in the forward chain of spec section 4.3.  This is a
spec-side definition, written from the words of the spec and used only to
compare the code behaviour against the claimed transition graph. -/
def chainIndex : OrderStatus → Option Nat
  | OrderStatus.pending_payment => some 0
  | OrderStatus.pending => some 1
  | OrderStatus.awaiting_rider => some 2
  | OrderStatus.rider_assigned => some 3
  | OrderStatus.preparing => some 4
  | OrderStatus.ready => some 5
  | OrderStatus.picked_up => some 6
  | OrderStatus.on_the_way => some 7
  | OrderStatus.delivered => some 8
  | _ => none

/-- Terminal branch states of spec section 4.3. -/
def isTerminalBranch (s : OrderStatus) : Bool :=
  s = OrderStatus.rejected ∨ s = OrderStatus.auto_rejected ∨ s = OrderStatus.cancelled

/-- The transition graph the claim asserts (spec-side definition): strictly
forward along the chain, or from a pre-picked_up chain state to a terminal
branch state. -/
def specForwardAllowed (s t : OrderStatus) : Bool :=
  match chainIndex s, chainIndex t with
  | some i, some j => i < j
  | some i, none => isTerminalBranch t ∧ i < 6
  | _, _ => false

/-- C3 counterexample: the claim that no input can produce a transition
outside the spec graph is false.  A PATCH request with status preparing on an
order already delivered succeeds and moves the status backward from delivered
to preparing, a transition the spec graph does not contain. -/
theorem C3_counterexample_backward_transition :
    (patchStatus OrderStatus.preparing
      (some { awaitingOrder with status := OrderStatus.delivered }) none 5000).2.2
        = PatchResult.ok ∧
    ((patchStatus OrderStatus.preparing
      (some { awaitingOrder with status := OrderStatus.delivered }) none 5000).1.map
        OrderRec.status) = some OrderStatus.preparing ∧
    specForwardAllowed OrderStatus.delivered OrderStatus.preparing = false := by
  decide

/-- C3 amended: the status-update operations do not restrict transitions to
the spec graph.  The PATCH route checks only that the requested status is in
validStatuses and then applies it whatever the current status is, and the
update_order_status socket handler applies any requested status
unconditionally. -/
theorem C3_amended_no_transition_guard (s : OrderStatus) (ord : OrderRec)
    (stats : Option RiderStats) (now : Nat) :
    (s ∈ validStatuses →
      (patchStatus s (some ord) stats now).2.2 = PatchResult.ok ∧
      ((patchStatus s (some ord) stats now).1.map OrderRec.status) = some s) ∧
    (s ∉ validStatuses →
      patchStatus s (some ord) stats now = (some ord, stats, PatchResult.invalidStatus)) ∧
    ((update_order_status s (some ord) now).map OrderRec.status = some s) := by
  cases s <;>
    simp [patchStatus, validStatuses, update_order_status]

/-- Witness for the amended C3 at a concrete backward transition. -/
theorem C3_amended_no_transition_guard_witness :
    (patchStatus OrderStatus.preparing
      (some { awaitingOrder with status := OrderStatus.delivered }) none 5000).2.2
        = PatchResult.ok ∧
    ((patchStatus OrderStatus.preparing
      (some { awaitingOrder with status := OrderStatus.delivered }) none 5000).1.map
        OrderRec.status) = some OrderStatus.preparing :=
  (C3_amended_no_transition_guard OrderStatus.preparing
    { awaitingOrder with status := OrderStatus.delivered } none 5000).1 (by decide)

/-- A concrete claimed order on its way, rider 1 bound, earnings 40. -/
def onTheWayOrder : OrderRec :=
  { awaitingOrder with
    status := OrderStatus.on_the_way
    rider := some 1
    riderEarnings := 40 }

/-- Zeroed rider statistics, last reset on day 0. -/
def stats0 : RiderStats :=
  { totalDeliveries := 0, totalEarnings := 0, todayEarnings := 0,
    lastEarningsReset := 0 }

/-- C6 counterexample: a duplicate delivered status update is not a no-op.
Applying PATCH status delivered twice to the same order runs the rider
statistics update twice: totalDeliveries is 1 after one application and 2
after the duplicate, so the rider aggregate statistics are not left the same. -/
theorem C6_counterexample_delivered_twice :
    ((patchStatus OrderStatus.delivered (some onTheWayOrder) (some stats0) 500).2.1.map
        RiderStats.totalDeliveries) = some 1 ∧
    ((patchStatus OrderStatus.delivered
        ((patchStatus OrderStatus.delivered (some onTheWayOrder) (some stats0) 500).1)
        ((patchStatus OrderStatus.delivered (some onTheWayOrder) (some stats0) 500).2.1)
        500).2.1.map RiderStats.totalDeliveries) = some 2 ∧
    ((patchStatus OrderStatus.delivered
        ((patchStatus OrderStatus.delivered (some onTheWayOrder) (some stats0) 500).1)
        ((patchStatus OrderStatus.delivered (some onTheWayOrder) (some stats0) 500).2.1)
        500).2.1.map RiderStats.totalDeliveries) ≠
      ((patchStatus OrderStatus.delivered (some onTheWayOrder) (some stats0) 500).2.1.map
        RiderStats.totalDeliveries) := by
  refine ⟨by decide, by decide, by decide⟩

/-- C6 amended: a duplicate post-assignment status update succeeds (it is not
an error) and, for preparing, ready, picked_up and on_the_way, re-applies the
same state so a duplicate carrying the same timestamp is a no-op; but a
duplicate delivered update re-runs the rider statistics update, incrementing
totalDeliveries and adding riderEarnings to the totals a second time. -/
theorem C6_amended_duplicate_status (s : OrderStatus) (ord : OrderRec)
    (stats : Option RiderStats) (now : Nat) :
    (s ∈ [OrderStatus.preparing, OrderStatus.ready, OrderStatus.picked_up,
          OrderStatus.on_the_way] →
      patchStatus s (patchStatus s (some ord) stats now).1
          (patchStatus s (some ord) stats now).2.1 now
        = patchStatus s (some ord) stats now) ∧
    (∀ st : RiderStats, ord.rider ≠ none →
      (patchStatus OrderStatus.delivered
          (patchStatus OrderStatus.delivered (some ord) (some st) now).1
          (patchStatus OrderStatus.delivered (some ord) (some st) now).2.1 now).2.1
        = some (updateRiderStatsOnDelivery
            (updateRiderStatsOnDelivery st ord.riderEarnings now) ord.riderEarnings now)) ∧
    (∀ st : RiderStats, ∀ e : ℚ,
      (updateRiderStatsOnDelivery st e now).totalDeliveries = st.totalDeliveries + 1) := by
  refine ⟨?_, ?_, ?_⟩
  · intro hs
    simp only [List.mem_cons, List.not_mem_nil, or_false] at hs
    rcases hs with rfl | rfl | rfl | rfl <;>
      simp [patchStatus, validStatuses]
  · intro st hr
    obtain ⟨r, hr⟩ := Option.ne_none_iff_exists'.mp hr
    simp [patchStatus, validStatuses, hr]
  · intro st e
    unfold updateRiderStatsOnDelivery
    by_cases h : dayOf st.lastEarningsReset ≠ dayOf now <;> simp [h]

/-- Witness for the amended C6: a duplicate preparing update with the same
timestamp, and the double statistics update on a concrete delivered order. -/
theorem C6_amended_duplicate_status_witness :
    patchStatus OrderStatus.preparing
        (patchStatus OrderStatus.preparing (some onTheWayOrder) (some stats0) 500).1
        (patchStatus OrderStatus.preparing (some onTheWayOrder) (some stats0) 500).2.1 500
      = patchStatus OrderStatus.preparing (some onTheWayOrder) (some stats0) 500 :=
  (C6_amended_duplicate_status OrderStatus.preparing onTheWayOrder (some stats0) 500).1
    (by decide)

/-- The ten minute deadline of the auto-reject interval, in milliseconds. -/
def TEN_MINUTES_MS : Nat := 10 * 60 * 1000

/-- The auto-reject query predicate (src/unnamed/part_001 lines 776-780):
status pending and createdAt strictly before now minus ten minutes. -/
def sweeperMatches (now : Nat) (ord : OrderRec) : Bool :=
  ord.status = OrderStatus.pending ∧
    (ord.createdAt : ℤ) < (now : ℤ) - (TEN_MINUTES_MS : ℤ)

/-- The document written for a swept order (src/unnamed/part_001 lines
782-785). -/
def autoRejectApply (ord : OrderRec) : OrderRec :=
  { ord with
    status := OrderStatus.auto_rejected
    rejectionReason := some "Restaurant did not respond within 10 minutes" }

/-- One run of the auto-reject interval (src/unnamed/part_001 lines 774-800)
over the order store `db` (association list of id and document) and the
activeOrdersPool key set `pool`: every matching order is saved as
auto_rejected with the standard reason, deleted from the pool, and an
order_status_changed event is emitted for it; all other orders are untouched. -/
def autoRejectSweep (now : Nat) (db : List (Nat × OrderRec)) (pool : List Nat) :
    List (Nat × OrderRec) × List Nat × List Event :=
  (db.map (fun p => if sweeperMatches now p.2 then (p.1, autoRejectApply p.2) else p),
   pool.filter (fun oid =>
     ¬ (db.filter (fun p => sweeperMatches now p.2)).any (fun p => p.1 = oid)),
   (db.filter (fun p => sweeperMatches now p.2)).map
     (fun p => Event.order_status_changed p.1 OrderStatus.auto_rejected))

/-- C5: the sweeper transitions to auto_rejected exactly the orders still
pending and older than the ten minute deadline, removes each from the order
pool and publishes the status change; an order that has left pending (for
example one moved to awaiting_rider before the deadline) keeps its entry
untouched, and any entry the sweep leaves in auto_rejected state either was
already auto_rejected or was pending and past the deadline. -/
theorem C5_auto_expiry (now : Nat) (db : List (Nat × OrderRec)) (pool : List Nat)
    (oid : Nat) (ord : OrderRec) :
    ((oid, ord) ∈ db → ord.status = OrderStatus.pending →
        (ord.createdAt : ℤ) < (now : ℤ) - (TEN_MINUTES_MS : ℤ) →
      (oid, autoRejectApply ord) ∈ (autoRejectSweep now db pool).1 ∧
      oid ∉ (autoRejectSweep now db pool).2.1 ∧
      Event.order_status_changed oid OrderStatus.auto_rejected
        ∈ (autoRejectSweep now db pool).2.2) ∧
    ((oid, ord) ∈ db → ord.status ≠ OrderStatus.pending →
      (oid, ord) ∈ (autoRejectSweep now db pool).1) ∧
    (∀ ord2 : OrderRec, (oid, ord2) ∈ (autoRejectSweep now db pool).1 →
      ord2.status = OrderStatus.auto_rejected →
      ∃ ord1, (oid, ord1) ∈ db ∧
        (ord1.status = OrderStatus.auto_rejected ∨
         (ord1.status = OrderStatus.pending ∧
          (ord1.createdAt : ℤ) < (now : ℤ) - (TEN_MINUTES_MS : ℤ)))) := by
  refine ⟨?_, ?_, ?_⟩
  · intro hmem hp hc
    have hm : sweeperMatches now ord = true := by
      simp [sweeperMatches, hp, hc]
    refine ⟨?_, ?_, ?_⟩
    · exact List.mem_map.mpr ⟨(oid, ord), hmem, by simp [hm]⟩
    · intro hin
      have h2 := (List.mem_filter.mp hin).2
      have h3 : (db.filter (fun p => sweeperMatches now p.2)).any
          (fun p => p.1 = oid) = true :=
        List.any_eq_true.mpr ⟨(oid, ord), List.mem_filter.mpr ⟨hmem, hm⟩, by simp⟩
      simp [h3] at h2
    · exact List.mem_map.mpr ⟨(oid, ord), List.mem_filter.mpr ⟨hmem, hm⟩, rfl⟩
  · intro hmem hnp
    have hm : sweeperMatches now ord = false := by
      simp [sweeperMatches, hnp]
    exact List.mem_map.mpr ⟨(oid, ord), hmem, by simp [hm]⟩
  · intro ord2 hmem hst
    rcases List.mem_map.mp hmem with ⟨p, hp, heq⟩
    by_cases hm : sweeperMatches now p.2 = true
    · rw [if_pos hm] at heq
      cases heq
      refine ⟨p.2, hp, Or.inr ?_⟩
      simpa [sweeperMatches] using hm
    · rw [if_neg hm] at heq
      cases heq
      exact ⟨ord2, hp, Or.inl hst⟩

/-- A concrete order still pending and created at time 0. -/
def pendingOldOrder : OrderRec :=
  { awaitingOrder with status := OrderStatus.pending, createdAt := 0 }

/-- A concrete order store for the sweeper witness. -/
def sweepDb : List (Nat × OrderRec) :=
  [(9, pendingOldOrder), (10, awaitingOrder)]

/-- Witness for C5: at 700000 ms the pending order from time 0 is swept. -/
theorem C5_auto_expiry_witness :
    (9, autoRejectApply pendingOldOrder) ∈ (autoRejectSweep 700000 sweepDb [9, 10]).1 ∧
    9 ∉ (autoRejectSweep 700000 sweepDb [9, 10]).2.1 ∧
    Event.order_status_changed 9 OrderStatus.auto_rejected
      ∈ (autoRejectSweep 700000 sweepDb [9, 10]).2.2 :=
  (C5_auto_expiry 700000 sweepDb [9, 10] 9 pendingOldOrder).1
    (by simp [sweepDb]) rfl (by decide)

/-- HTTP outcome of the PIN verification routes. -/
inductive PinResult where
  | notFound
  | invalidPin
  | ok
deriving DecidableEq, Repr

/-- POST /api/orders/:id/verify-pickup-pin (src/routes/order.js lines
491-553): 404 when the order is missing; 400 Invalid pickup PIN when the
supplied pin differs from order.pickupPin, leaving the document untouched;
otherwise set status picked_up and stamp pickedUpAt. -/
def verify_pickup_pin (db : Option OrderRec) (pin : Option String) (now : Nat) :
    Option OrderRec × PinResult :=
  match db with
  | none => (none, PinResult.notFound)
  | some ord =>
    if ord.pickupPin ≠ pin then (some ord, PinResult.invalidPin)
    else (some { ord with status := OrderStatus.picked_up, pickedUpAt := some now },
          PinResult.ok)

/-- POST /api/orders/:id/verify-delivery-pin (src/routes/order.js lines
556-641): as for pickup but against order.deliveryPin, setting delivered,
stamping deliveredAt, and first running the rider statistics update when the
order has a rider whose user record is a rider. -/
def verify_delivery_pin (db : Option OrderRec) (pin : Option String)
    (stats : Option RiderStats) (now : Nat) :
    Option OrderRec × Option RiderStats × PinResult :=
  match db with
  | none => (none, stats, PinResult.notFound)
  | some ord =>
    if ord.deliveryPin ≠ pin then (some ord, stats, PinResult.invalidPin)
    else
      let stats1 := match ord.rider, stats with
        | some _, some s => some (updateRiderStatsOnDelivery s ord.riderEarnings now)
        | _, _ => stats
      (some { ord with status := OrderStatus.delivered, deliveredAt := some now },
       stats1, PinResult.ok)

/-- C7: a wrong PIN is rejected and leaves the order (status and every
timestamp) unchanged; the stored PIN transitions the order to picked_up,
respectively delivered, stamping the corresponding timestamp. -/
theorem C7_pin_verification (ord : OrderRec) (pin : Option String)
    (stats : Option RiderStats) (now : Nat) :
    (pin ≠ ord.pickupPin →
      verify_pickup_pin (some ord) pin now = (some ord, PinResult.invalidPin)) ∧
    (verify_pickup_pin (some ord) ord.pickupPin now =
      (some { ord with status := OrderStatus.picked_up, pickedUpAt := some now },
       PinResult.ok)) ∧
    (pin ≠ ord.deliveryPin →
      verify_delivery_pin (some ord) pin stats now =
        (some ord, stats, PinResult.invalidPin)) ∧
    ((verify_delivery_pin (some ord) ord.deliveryPin stats now).1 =
      some { ord with status := OrderStatus.delivered, deliveredAt := some now } ∧
     (verify_delivery_pin (some ord) ord.deliveryPin stats now).2.2 = PinResult.ok) := by
  refine ⟨?_, ?_, ?_, ?_⟩
  · intro h
    simp [verify_pickup_pin, Ne.symm h]
  · simp [verify_pickup_pin]
  · intro h
    simp [verify_delivery_pin, Ne.symm h]
  · simp [verify_delivery_pin]

/-- Witness for C7 on the concrete awaiting order with pins 1234 and 5678. -/
theorem C7_pin_verification_witness :
    verify_pickup_pin (some awaitingOrder) (some "0000") 77 =
      (some awaitingOrder, PinResult.invalidPin) ∧
    verify_pickup_pin (some awaitingOrder) awaitingOrder.pickupPin 77 =
      (some { awaitingOrder with
          status := OrderStatus.picked_up
          pickedUpAt := some 77 }, PinResult.ok) :=
  ⟨(C7_pin_verification awaitingOrder (some "0000") none 77).1 (by decide),
   (C7_pin_verification awaitingOrder (some "0000") none 77).2.1⟩

/-- Radius threshold of the candidate scan, in km (src/unnamed/part_001 line
691, MAX_DISTANCE_KM). -/
def MAX_DISTANCE_KM : ℚ := 1000

/-- The candidate scan of notifyNearbyRiders (src/unnamed/part_001 lines
697-714): every activeRidersPool rider whose distance from the restaurant is
at most the radius is collected into nearbyRiders and subsequently sent
new_order_available.  The haversine calculateDistance is transcendental float
arithmetic and enters the model as the parameter `dist`; a pool record with
missing or non-numeric coordinate fields (coordinates = none) makes
calculateDistance return NaN, and the comparison NaN less-or-equal radius is
false in JavaScript, so such a rider is excluded. -/
def nearbyRiderIds (dist : Coord → Coord → ℚ) (restaurant : Coord)
    (pool : RiderPool) : List Nat :=
  (pool.filter (fun p => match p.2.coordinates with
    | some c => dist restaurant c ≤ MAX_DISTANCE_KM
    | none => false)).map (fun p => p.1)

/-- C8: the riders notified are exactly the pool riders with stored
coordinates within the radius: a rider without stored coordinates is
excluded, every rider within the radius is included, and a rider exactly at
the radius boundary is included. -/
theorem C8_radius_filter (dist : Coord → Coord → ℚ) (restaurant : Coord)
    (pool : RiderPool) (rid : Nat) :
    (rid ∈ nearbyRiderIds dist restaurant pool ↔
      ∃ p ∈ pool, p.1 = rid ∧ ∃ c, p.2.coordinates = some c ∧
        dist restaurant c ≤ MAX_DISTANCE_KM) ∧
    (∀ p ∈ pool, ∀ c, p.2.coordinates = some c →
      dist restaurant c = MAX_DISTANCE_KM →
      p.1 ∈ nearbyRiderIds dist restaurant pool) := by
  constructor
  · constructor
    · intro h
      rcases List.mem_map.mp h with ⟨p, hp, rfl⟩
      have h2 := (List.mem_filter.mp hp).2
      refine ⟨p, (List.mem_filter.mp hp).1, rfl, ?_⟩
      rcases hc : p.2.coordinates with _ | c
      · rw [hc] at h2; simp at h2
      · rw [hc] at h2
        exact ⟨c, rfl, by simpa using h2⟩
    · rintro ⟨p, hp, rfl, c, hc, hd⟩
      refine List.mem_map.mpr ⟨p, List.mem_filter.mpr ⟨hp, ?_⟩, rfl⟩
      rw [hc]
      simpa using hd
  · intro p hp c hc hd
    refine List.mem_map.mpr ⟨p, List.mem_filter.mpr ⟨hp, ?_⟩, rfl⟩
    rw [hc]
    simp [hd, le_refl]

/-- Witness for C8: with a distance function that is constantly the radius,
rider 1 of the concrete pool sits exactly on the boundary and is notified. -/
theorem C8_radius_filter_witness :
    1 ∈ nearbyRiderIds (fun _ _ => MAX_DISTANCE_KM) ⟨0, 0⟩ twoRiderPool :=
  (C8_radius_filter (fun _ _ => MAX_DISTANCE_KM) ⟨0, 0⟩ twoRiderPool 1).1.mpr
    ⟨(1, { riderId := 1, name := "r1", coordinates := some ⟨10, 20⟩,
           activeOrders := [], lastUpdate := 0 }),
     by simp [twoRiderPool], rfl, ⟨10, 20⟩, rfl, le_refl _⟩

/-- The rider_join_pool handler after its validation succeeded
(src/unnamed/part_001 lines 160-214): look up any existing pool record to
preserve activeOrders, then Map.set a fresh record carrying the supplied
coordinates and the preserved activeOrders. -/
def rider_join_pool (pool : RiderPool) (riderId : Nat) (name : String)
    (coords : Coord) (now : Nat) : RiderPool :=
  let existingActiveOrders := match poolGet pool riderId with
    | some r => r.activeOrders
    | none => []
  poolSet pool riderId
    { riderId := riderId, name := name, coordinates := some coords,
      activeOrders := existingActiveOrders, lastUpdate := now }

/-- The disconnect handler (src/unnamed/part_001 lines 581-589): the rider
record is deleted from the pool; rider_leave_pool (lines 217-226) deletes it
likewise. -/
def disconnectRider (pool : RiderPool) (riderId : Nat) : RiderPool :=
  poolDelete pool riderId

/-- Map.get after Map.set finds the fresh record. -/
theorem poolGet_poolSet (pool : RiderPool) (rid : Nat) (rec : RiderRec) :
    poolGet (poolSet pool rid rec) rid = some rec := by
  induction pool with
  | nil => simp [poolGet, poolSet, List.lookup]
  | cons p ps ih =>
    by_cases hp : p.1 = rid
    · simp [poolGet, poolSet, hp, List.lookup]
    · have hbeq : (rid == p.1) = false := by simpa using Ne.symm hp
      simp only [poolGet, poolSet, if_neg hp, List.lookup, hbeq]
      exact ih

/-- Map.get after Map.delete finds nothing. -/
theorem poolGet_poolDelete (pool : RiderPool) (rid : Nat) :
    poolGet (poolDelete pool rid) rid = none := by
  unfold poolGet poolDelete
  induction pool with
  | nil => rfl
  | cons p ps ih =>
    by_cases hp : p.1 = rid
    · simpa [List.filter_cons, hp] using ih
    · have hbeq : (rid == p.1) = false := by simpa using Ne.symm hp
      have hkeep : (decide (p.1 ≠ rid)) = true := by simpa using hp
      simp only [List.filter_cons, hkeep, if_true, List.lookup, hbeq]
      exact ih

/-- C9 counterexample: the claim that activeOrderIds survive a disconnect and
rejoin is false.  Rider 1 joins, is assigned order 5 by a successful claim,
disconnects (which deletes the pool record), and joins again: the rejoined
record carries an empty activeOrders list, not [5]. -/
theorem C9_counterexample_rejoin_after_disconnect :
    ((poolGet (claimPoolUpdate 5 (rider_join_pool [] 1 "r1" ⟨10, 20⟩ 0) 1) 1).map
        RiderRec.activeOrders) = some [5] ∧
    ((poolGet
        (rider_join_pool
          (disconnectRider (claimPoolUpdate 5 (rider_join_pool [] 1 "r1" ⟨10, 20⟩ 0) 1) 1)
          1 "r1" ⟨10, 20⟩ 50) 1).map
        RiderRec.activeOrders) = some [] := by
  refine ⟨by decide, by decide⟩

/-- C9 amended: rider_join_pool preserves the assigned order ids only while
the rider record is still in the pool: a re-join without an intervening
disconnect or leave keeps activeOrders, but after a disconnect (or
rider_leave_pool), which deletes the record, a fresh join starts with an
empty activeOrders list. -/
theorem C9_amended_rejoin_preservation (pool : RiderPool) (riderId : Nat)
    (name : String) (coords : Coord) (now : Nat) :
    ((poolGet (rider_join_pool pool riderId name coords now) riderId).map
        RiderRec.activeOrders) =
      some (match poolGet pool riderId with
            | some r => r.activeOrders
            | none => []) ∧
    ((poolGet (rider_join_pool (disconnectRider pool riderId) riderId name coords now)
        riderId).map RiderRec.activeOrders) = some [] := by
  constructor
  · unfold rider_join_pool
    rw [poolGet_poolSet]
    rfl
  · unfold rider_join_pool disconnectRider
    rw [poolGet_poolDelete, poolGet_poolSet]
    rfl

/-- One entry of the formattedOrders array returned by
GET /api/orders/available (src/routes/order.js lines 902-917); fields not
modelled elsewhere (names, addresses, items) are omitted. -/
structure AvailableOrderView where
  orderId : Nat
  totalAmount : ℚ
  deliveryFee : ℚ
  status : OrderStatus
  createdAt : Nat
  pickupPin : Option String
  distanceToCustomer : ℚ
deriving DecidableEq, Repr

/-- The per-order formatting step of GET /api/orders/available
(src/routes/order.js lines 902-917): the payload includes order.pickupPin. -/
def formatAvailableOrder (oid : Nat) (ord : OrderRec) : AvailableOrderView :=
  { orderId := oid
    totalAmount := ord.totalAmount
    deliveryFee := ord.deliveryFee
    status := ord.status
    createdAt := ord.createdAt
    pickupPin := ord.pickupPin
    distanceToCustomer := ord.distanceToCustomer }

/-- GET /api/orders/available (src/routes/order.js lines 800-933) on the path
where a valid rider location is supplied (the no-location else branch of the
source is unreachable dead text): activeOrdersPool entries (orderId, status,
createdAt) that are awaiting_rider and at most ten minutes old select the
database orders; those whose restaurant has coordinates within the radius of
the rider location are kept and formatted. -/
def availableOrders (dist : Coord → Coord → ℚ) (riderLoc : Coord) (now : Nat)
    (pool : List (Nat × OrderStatus × Nat)) (db : List (Nat × OrderRec)) :
    List AvailableOrderView :=
  let poolIds := (pool.filter (fun p =>
      p.2.1 = OrderStatus.awaiting_rider ∧
        (now : ℤ) - 600000 ≤ (p.2.2 : ℤ))).map (fun p => p.1)
  let orders := db.filter (fun p => p.1 ∈ poolIds)
  let filtered := orders.filter (fun p => match p.2.restaurantCoordinates with
    | some c => dist riderLoc c ≤ MAX_DISTANCE_KM
    | none => false)
  filtered.map (fun p => formatAvailableOrder p.1 p.2)

/-- C10: every order in the available-orders response is a formatted database
order whose payload carries that order pickupPin field, so the pickup secret
is disclosed to any rider listing available orders before a claim is made. -/
theorem C10_available_orders_expose_pickup_pin (dist : Coord → Coord → ℚ)
    (riderLoc : Coord) (now : Nat) (pool : List (Nat × OrderStatus × Nat))
    (db : List (Nat × OrderRec)) (v : AvailableOrderView) :
    v ∈ availableOrders dist riderLoc now pool db →
      ∃ oid ord, (oid, ord) ∈ db ∧ v = formatAvailableOrder oid ord ∧
        v.pickupPin = ord.pickupPin := by
  intro hv
  rcases List.mem_map.mp hv with ⟨p, hp, rfl⟩
  have h1 := (List.mem_filter.mp hp).1
  exact ⟨p.1, p.2, (List.mem_filter.mp h1).1, rfl, rfl⟩

/-- Witness for C10: a concrete awaiting order is listed and its pickup pin
1234 appears in the response payload. -/
theorem C10_available_orders_expose_pickup_pin_witness :
    ∃ oid ord, (oid, ord) ∈ [(9, awaitingOrder)] ∧
      formatAvailableOrder 9 awaitingOrder = formatAvailableOrder oid ord ∧
      (formatAvailableOrder 9 awaitingOrder).pickupPin = ord.pickupPin :=
  C10_available_orders_expose_pickup_pin (fun _ _ => 0) ⟨0, 0⟩ 600000
    [(9, OrderStatus.awaiting_rider, 0)] [(9, awaitingOrder)]
    (formatAvailableOrder 9 awaitingOrder) (by decide)
